import Mathlib

/-!
Shallow embedding of the media-management backend (routes_auth.py and
routes_media.py). External collaborators (document store, blob store,
password hashing, token issuance, file validation, JSON decoding and
thumbnail generation) are passed in as explicit function parameters, so
each route handler becomes a pure Lean function from its inputs and the
collaborators' behaviour to an HTTP-level outcome together with the trace
of collaborator side effects it performed.
-/

namespace MediaBackend

/-- An HTTP error as carried by a raised fastapi HTTPException:
a status code plus a detail message. -/
structure HTTPError where
  statusCode : Nat
  detail : String
deriving DecidableEq, Repr

/-- The Python exceptions that the route bodies can raise or propagate:
an HTTPException, a ValueError, or any other Exception carrying a message. -/
inductive PyExc where
  | http (e : HTTPError)
  | valueError (msg : String)
  | exc (msg : String)
deriving DecidableEq, Repr

/-- A JSON value, the codomain of json.loads. -/
inductive Json where
  | null
  | bool (b : Bool)
  | num (n : Int)
  | str (s : String)
  | arr (xs : List Json)
  | obj (kvs : List (String × Json))
deriving Repr

/-- Whether a JSON value is an array: Python isinstance(parsed, list). -/
def Json.isArr : Json → Bool
  | .arr _ => true
  | _ => false

/-- A user document as persisted by register_account
(id, username, email, hashed_password, created_at). -/
structure UserDoc where
  id : String
  username : String
  email : String
  hashed_password : String
  created_at : String
deriving DecidableEq, Repr

/-- The UserResponse body shape that register_account and login_account
construct: exactly the fields id, username, email and createdAt. -/
structure UserResponse where
  id : String
  username : String
  email : String
  createdAt : String
deriving DecidableEq, Repr

/-- The Token response body: the access token plus the user profile. -/
structure Token where
  token : String
  user : UserResponse
deriving DecidableEq, Repr

/-- The registration request payload (UserCreate model). -/
structure UserCreate where
  username : String
  email : String
  password : String
deriving DecidableEq, Repr

/-- Modelled from the spec: the document store operation getUserByEmail
looks the user up by exact email in the user collection. -/
def get_user_by_email (db : List UserDoc) (email : String) : Option UserDoc :=
  db.find? (fun u => u.email = email)

/-- Collaborator side effects performed by the auth routes: persisting a
new user document and issuing an access token bound to a subject and email. -/
inductive AuthEffect where
  | createUser (doc : UserDoc)
  | issueToken (sub : String) (email : String)
deriving DecidableEq, Repr

/-- routes_auth.py register_account: rejects an already-registered email
with status 400, otherwise hashes the password, persists the user document
under a fresh id, issues a token bound to the id and email, and returns
the token together with the user profile stripped of the hashed password.
The fresh uuid and the current timestamp are passed in as account_id and
now; get_password_hash and create_access_token are the collaborators. -/
def register_account (db : List UserDoc) (get_password_hash : String → String)
    (create_access_token : String → String → String)
    (account_payload : UserCreate) (account_id : String) (now : String) :
    Except PyExc Token × List AuthEffect :=
  match get_user_by_email db account_payload.email with
  | some _ =>
      (.error (.http ⟨400, "User with this email already exists"⟩), [])
  | none =>
      let account_doc : UserDoc :=
        { id := account_id
          username := account_payload.username
          email := account_payload.email
          hashed_password := get_password_hash account_payload.password
          created_at := now }
      let persisted_user := account_doc
      let access_token := create_access_token account_id account_payload.email
      let response_body : UserResponse :=
        { id := persisted_user.id
          username := persisted_user.username
          email := persisted_user.email
          createdAt := persisted_user.created_at }
      (.ok { token := access_token, user := response_body },
        [AuthEffect.createUser account_doc,
         AuthEffect.issueToken account_id account_payload.email])

/-- routes_auth.py login_account: looks the user up by email and rejects
with 401 "Invalid email or password" when the user is absent, rejects with
the identical 401 when verify_password fails against the stored hash, and
otherwise issues a token and returns it with the user profile. -/
def login_account (db : List UserDoc)
    (verify_password : String → String → Bool)
    (create_access_token : String → String → String)
    (email password : String) : Except PyExc Token :=
  match get_user_by_email db email with
  | none =>
      .error (.http ⟨401, "Invalid email or password"⟩)
  | some account_record =>
      if verify_password password account_record.hashed_password then
        .ok { token := create_access_token account_record.id account_record.email
              user := { id := account_record.id
                        username := account_record.username
                        email := account_record.email
                        createdAt := account_record.created_at } }
      else
        .error (.http ⟨401, "Invalid email or password"⟩)

/-- The outer exception handlers of register_account, lines 64-74: a
raised HTTPException is re-raised unchanged, a ValueError becomes a 400
with its message, any other exception becomes a 500 wrapping the message. -/
def register_exc_to_http : PyExc → HTTPError
  | .http e => e
  | .valueError m => ⟨400, m⟩
  | .exc m => ⟨500, "Failed to register user: " ++ m⟩

/-- The HTTP outcome of the register endpoint. -/
def register_account_endpoint (db : List UserDoc)
    (get_password_hash : String → String)
    (create_access_token : String → String → String)
    (account_payload : UserCreate) (account_id : String) (now : String) :
    Except HTTPError Token × List AuthEffect :=
  match register_account db get_password_hash create_access_token
      account_payload account_id now with
  | (.error e, tr) => (.error (register_exc_to_http e), tr)
  | (.ok t, tr) => (.ok t, tr)

/-- The outer exception handlers of login_account, lines 119-126: a raised
HTTPException is re-raised unchanged, anything else becomes a 500. -/
def login_exc_to_http : PyExc → HTTPError
  | .http e => e
  | .valueError m => ⟨500, "Failed to login: " ++ m⟩
  | .exc m => ⟨500, "Failed to login: " ++ m⟩

/-- The HTTP outcome of the login endpoint. -/
def login_account_endpoint (db : List UserDoc)
    (verify_password : String → String → Bool)
    (create_access_token : String → String → String)
    (email password : String) : Except HTTPError Token :=
  match login_account db verify_password create_access_token email password with
  | .error e => .error (login_exc_to_http e)
  | .ok t => .ok t

/-- The HTTP status code of an auth route outcome: both auth routes are
declared with status_code 200 on success. -/
def auth_status {α : Type} : Except HTTPError α → Nat
  | .ok _ => 200
  | .error e => e.statusCode

/-- A media document as built by upload_media and persisted in the
document store. -/
structure MediaDoc where
  id : String
  userId : String
  fileName : String
  originalFileName : String
  mediaType : String
  fileSize : Nat
  mimeType : String
  blobUrl : String
  thumbnailUrl : Option String
  description : Option String
  tags : Option Json
  uploadedAt : String
  updatedAt : String
deriving Repr

/-- An uploaded file as seen by the route: filename, content type and the
byte content (modelled as a string). -/
structure UploadFile where
  filename : String
  content_type : String
  content : String
deriving DecidableEq, Repr

/-- Collaborator side effects performed by the media routes, in order:
blob-store uploads and deletes, and document-store media creation and
deletion. -/
inductive Effect where
  | blobUpload (scope : String) (name : String) (contentType : String)
  | blobDelete (name : String)
  | createMedia (doc : MediaDoc)
  | deleteMedia (media_id : String) (user_id : String)
deriving Repr

/-- The external collaborators consumed by routes_media.py, as explicit
functions: utils.validate_file_type and utils.validate_file_size (which
raise HTTPException on invalid input), json.loads (none on a JSON decode
error), blob_storage.upload_file and blob_storage.delete_file (error on a
raised exception, carrying its message), utils.generate_thumbnail (none
when no thumbnail data is produced), and the document store's create_media
and delete_media operations. -/
structure MediaEnv where
  validate_file_type : UploadFile → Except PyExc String
  validate_file_size : UploadFile → Except PyExc Nat
  json_loads : String → Option Json
  upload_file : String → String → String → Except String (String × String)
  generate_thumbnail : String → Option String
  create_media : MediaDoc → Except String MediaDoc
  delete_file : String → Except String Unit
  delete_media_record : String → String → Except String Unit

/-- The media documents passed to the document store's create_media by a
trace of effects. -/
def createdDocs : List Effect → List MediaDoc
  | [] => []
  | .createMedia d :: tl => d :: createdDocs tl
  | _ :: tl => createdDocs tl

/-- The blob-store upload calls in a trace of effects. -/
def blobUploadCalls : List Effect → List (String × String × String)
  | [] => []
  | .blobUpload scope name ct :: tl => (scope, name, ct) :: blobUploadCalls tl
  | _ :: tl => blobUploadCalls tl

/-- The blob-store delete calls in a trace of effects. -/
def blobDeleteCalls : List Effect → List String
  | [] => []
  | .blobDelete name :: tl => name :: blobDeleteCalls tl
  | _ :: tl => blobDeleteCalls tl

/-- The document-store media deletions in a trace of effects. -/
def deleteMediaCalls : List Effect → List (String × String)
  | [] => []
  | .deleteMedia mid uid :: tl => (mid, uid) :: deleteMediaCalls tl
  | _ :: tl => deleteMediaCalls tl

/-- The tag-parsing step of upload_media, lines 40-50 of routes_media.py:
when tags is absent or empty (Python falsy) no parsing happens; when
json.loads fails the inner handler raises HTTPException 400; when it
yields a non-list, ValueError "Tags must be an array" is raised, which
json.JSONDecodeError does NOT catch, so it escapes the inner try. -/
def parse_tags (json_loads : String → Option Json) (tags : Option String) :
    Except PyExc (Option Json) :=
  match tags with
  | none => .ok none
  | some t =>
      if t = "" then .ok none
      else
        match json_loads t with
        | none =>
            .error (.http ⟨400, "Invalid tags format. Must be a JSON array."⟩)
        | some parsed =>
            if parsed.isArr then .ok (some parsed)
            else .error (.valueError "Tags must be an array")

/-- The thumbnail block of upload_media, lines 61-76 of routes_media.py:
only for images, generate_thumbnail is called on the raw payload; when it
yields (truthy) data the thumbnail is uploaded as a second blob inside its
own try, whose exception is caught and only logged, so a failed thumbnail
upload leaves the preview url at None. Returns the preview url and the
blob calls made by this block. -/
def thumbnail_step (env : MediaEnv) (media_kind raw_payload user_id filename : String) :
    Option String × List Effect :=
  if media_kind = "image" then
    match env.generate_thumbnail raw_payload with
    | none => (none, [])
    | some preview_data =>
        if preview_data = "" then (none, [])
        else
          let thumbName := "thumb_" ++ filename
          match env.upload_file user_id thumbName "image/jpeg" with
          | .error _ => (none, [.blobUpload user_id thumbName "image/jpeg"])
          | .ok (_, url) => (some url, [.blobUpload user_id thumbName "image/jpeg"])
  else (none, [])

/-- routes_media.py upload_media, body of the outer try: validates type
then size, parses tags, uploads the file to blob storage, for images
generates and uploads a thumbnail (the thumbnail upload's exception is
caught and only logged), builds the media document under a fresh id and
persists it. Returns the raised exception or the persisted document,
together with the trace of collaborator calls made. The fresh uuid and
timestamp are passed in as media_identifier and timestamp_iso. -/
def upload_media (env : MediaEnv) (file : UploadFile)
    (description : Option String) (tags : Option String) (user_id : String)
    (media_identifier : String) (timestamp_iso : String) :
    Except PyExc MediaDoc × List Effect :=
  match env.validate_file_type file with
  | .error e => (.error e, [])
  | .ok media_kind =>
    match env.validate_file_size file with
    | .error e => (.error e, [])
    | .ok uploaded_size =>
      match parse_tags env.json_loads tags with
      | .error e => (.error e, [])
      | .ok parsed_tags =>
        let raw_payload := file.content
        let tr0 : List Effect :=
          [.blobUpload user_id file.filename file.content_type]
        match env.upload_file user_id file.filename file.content_type with
        | .error msg => (.error (.exc msg), tr0)
        | .ok (uploaded_name, uploaded_url) =>
          let previewStep := thumbnail_step env media_kind raw_payload user_id file.filename
          let preview_url := previewStep.1
          let media_payload : MediaDoc :=
            { id := media_identifier
              userId := user_id
              fileName := uploaded_name
              originalFileName := file.filename
              mediaType := media_kind
              fileSize := uploaded_size
              mimeType := file.content_type
              blobUrl := uploaded_url
              thumbnailUrl := preview_url
              description := description
              tags := parsed_tags
              uploadedAt := timestamp_iso
              updatedAt := timestamp_iso }
          let tr2 := tr0 ++ previewStep.2 ++ [.createMedia media_payload]
          (match env.create_media media_payload with
           | .error msg => .error (.exc msg)
           | .ok persisted_media => .ok persisted_media, tr2)

/-- The outer exception handlers of upload_media, lines 103-110: a raised
HTTPException is re-raised unchanged; any other exception (ValueError
included, since upload_media has no ValueError clause) becomes a 500 whose
detail wraps the message. -/
def upload_exc_to_http : PyExc → HTTPError
  | .http e => e
  | .valueError m => ⟨500, "Failed to upload media: " ++ m⟩
  | .exc m => ⟨500, "Failed to upload media: " ++ m⟩

/-- The HTTP outcome of the upload endpoint: the handler's HTTPError on
failure, or the response document on success. -/
def upload_media_endpoint (env : MediaEnv) (file : UploadFile)
    (description : Option String) (tags : Option String) (user_id : String)
    (media_identifier : String) (timestamp_iso : String) :
    Except HTTPError MediaDoc × List Effect :=
  match upload_media env file description tags user_id media_identifier timestamp_iso with
  | (.error e, tr) => (.error (upload_exc_to_http e), tr)
  | (.ok doc, tr) => (.ok doc, tr)

/-- The HTTP status code produced by the upload route: 201 Created on
success (the route is declared with status_code 201), else the error's
code. -/
def upload_status : Except HTTPError MediaDoc → Nat
  | .ok _ => 201
  | .error e => e.statusCode

/-- Modelled from the spec: media_helpers.fetch_and_verify_media_ownership
(not under src/) fetches the media record by id and raises NotFound both
when the record is absent and when its userId differs from the caller, so
cross-user access is indistinguishable from absence. -/
def fetch_and_verify_media_ownership (db : List MediaDoc)
    (media_id user_id : String) : Except PyExc MediaDoc :=
  match db.find? (fun m => m.id = media_id) with
  | none => .error (.http ⟨404, "Media not found"⟩)
  | some m =>
      if m.userId = user_id then .ok m
      else .error (.http ⟨404, "Media not found"⟩)

/-- Modelled from the spec: media_helpers.extract_thumbnail_blob_identifier
(not under src/) returns the identifier of the thumbnail blob if one is
recorded on the media document, and nothing otherwise. -/
def extract_thumbnail_blob_identifier (m : MediaDoc) : Option String :=
  m.thumbnailUrl

/-- The update request payload (MediaUpdate model): optional description
and optional tags, a sequence of strings. -/
structure MediaUpdate where
  description : Option String
  tags : Option (List String)
deriving Repr

/-- The partial update dictionary built by update_media_metadata: the
updatedAt key is always present, description and tags only when provided. -/
structure UpdatePayload where
  updatedAt : String
  description : Option String
  tags : Option (List String)
deriving Repr

/-- Modelled from the spec: the document store's update_media merges
exactly the keys present in the update payload into the stored record,
leaving every other field unchanged. -/
def cosmos_update_media (m : MediaDoc) (p : UpdatePayload) : MediaDoc :=
  { m with
    updatedAt := p.updatedAt
    description := match p.description with
      | some d => some d
      | none => m.description
    tags := match p.tags with
      | some ts => some (Json.arr (ts.map Json.str))
      | none => m.tags }

/-- routes_media.py update_media_metadata, body of the outer try: verifies
ownership, builds the update payload with the fresh updatedAt timestamp
plus the provided fields only, applies it through the document store, and
returns the updated record. -/
def update_media_metadata (db : List MediaDoc) (media_id : String)
    (update_data : MediaUpdate) (user_id : String) (now : String) :
    Except PyExc MediaDoc :=
  match fetch_and_verify_media_ownership db media_id user_id with
  | .error e => .error e
  | .ok existing_media =>
      let update_payload : UpdatePayload :=
        { updatedAt := now
          description := update_data.description
          tags := update_data.tags }
      .ok (cosmos_update_media existing_media update_payload)

/-- routes_media.py delete_media, body of the outer try: verifies
ownership, deletes the primary blob (an exception here propagates),
deletes the thumbnail blob when one is recorded (its exception is caught
and only logged), then deletes the metadata record and returns None.
Returns the outcome together with the trace of collaborator calls. -/
def delete_media (env : MediaEnv) (db : List MediaDoc)
    (media_id user_id : String) : Except PyExc Unit × List Effect :=
  match fetch_and_verify_media_ownership db media_id user_id with
  | .error e => (.error e, [])
  | .ok media_record =>
      let tr0 : List Effect := [.blobDelete media_record.fileName]
      match env.delete_file media_record.fileName with
      | .error msg => (.error (.exc msg), tr0)
      | .ok _ =>
          let tr1 :=
            match extract_thumbnail_blob_identifier media_record with
            | none => tr0
            | some preview_blob_id =>
                if preview_blob_id = "" then tr0
                else tr0 ++ [.blobDelete preview_blob_id]
          let tr2 := tr1 ++ [.deleteMedia media_id user_id]
          (match env.delete_media_record media_id user_id with
           | .error msg => .error (.exc msg)
           | .ok _ => .ok (), tr2)

/-- The outer exception handlers of delete_media, lines 262-268: a raised
HTTPException is re-raised unchanged; any other exception becomes a 500
"Failed to delete media". -/
def delete_exc_to_http : PyExc → HTTPError
  | .http e => e
  | _ => ⟨500, "Failed to delete media"⟩

/-- The HTTP outcome of the delete endpoint. -/
def delete_media_endpoint (env : MediaEnv) (db : List MediaDoc)
    (media_id user_id : String) : Except HTTPError Unit × List Effect :=
  match delete_media env db media_id user_id with
  | (.error e, tr) => (.error (delete_exc_to_http e), tr)
  | (.ok u, tr) => (.ok u, tr)

/-- The HTTP status code produced by the delete route: 204 No Content on
success (the route is declared with status_code 204), else the error's
code. -/
def delete_status : Except HTTPError Unit → Nat
  | .ok _ => 204
  | .error e => e.statusCode

/-- A concrete collaborator environment used to evaluate the routes on
closed inputs. Its json_loads gives Python json.loads behaviour on the
inputs exercised here: the string between square brackets decodes to the
three-element number array, "42" decodes to the number 42 (valid JSON that
is not an array), and every other string used fails to decode. -/
def exampleEnv : MediaEnv where
  validate_file_type f := if f.content_type = "video/mp4" then .ok "video" else .ok "image"
  validate_file_size f := .ok f.content.length
  json_loads s :=
    if s = "[1, 2, 3]" then some (.arr [.num 1, .num 2, .num 3])
    else if s = "42" then some (.num 42)
    else none
  upload_file scope name _ := .ok (scope ++ "/" ++ name, "https://blob/" ++ scope ++ "/" ++ name)
  generate_thumbnail content := some ("th:" ++ content)
  create_media doc := .ok doc
  delete_file _ := .ok ()
  delete_media_record _ _ := .ok ()

/-!
Theorems settling the claims.
-/

/-- C1 (code bug): at tags = "42", valid JSON that is not an array, the
inner ValueError "Tags must be an array" is not caught by the
json.JSONDecodeError handler, so upload_media fails with a 500 internal
error and not the claimed 400 BadRequest; no media record is created in
either case, and tags that are not valid JSON do yield the claimed 400. -/
theorem upload_non_array_tags_yields_500 :
    ((upload_media_endpoint exampleEnv ⟨"a.jpg", "image/jpeg", "xx"⟩ none
        (some "42") "u1" "m1" "t1").1 =
      .error ⟨500, "Failed to upload media: Tags must be an array"⟩) ∧
    (upload_status (upload_media_endpoint exampleEnv ⟨"a.jpg", "image/jpeg", "xx"⟩ none
        (some "42") "u1" "m1" "t1").1 ≠ 400) ∧
    (createdDocs (upload_media_endpoint exampleEnv ⟨"a.jpg", "image/jpeg", "xx"⟩ none
        (some "42") "u1" "m1" "t1").2 = []) ∧
    ((upload_media_endpoint exampleEnv ⟨"a.jpg", "image/jpeg", "xx"⟩ none
        (some "not json") "u1" "m1" "t1").1 =
      .error ⟨400, "Invalid tags format. Must be a JSON array."⟩) ∧
    (createdDocs (upload_media_endpoint exampleEnv ⟨"a.jpg", "image/jpeg", "xx"⟩ none
        (some "not json") "u1" "m1" "t1").2 = []) :=
  ⟨rfl, by decide, rfl, rfl, rfl⟩

/-- C2: a login whose email is unknown and a login whose password fails
verification against the stored hash produce the very same outcome: the
HTTPException 401 with detail "Invalid email or password", so the two
failure causes are indistinguishable from the response. -/
theorem login_failure_indistinguishable (db : List UserDoc)
    (verify_password : String → String → Bool)
    (create_access_token : String → String → String)
    (email password : String)
    (h : get_user_by_email db email = none ∨
      ∃ u, get_user_by_email db email = some u ∧
        verify_password password u.hashed_password = false) :
    login_account_endpoint db verify_password create_access_token email password =
      .error ⟨401, "Invalid email or password"⟩ := by
  rcases h with h | ⟨u, hu, hv⟩
  · simp [login_account_endpoint, login_account, h, login_exc_to_http]
  · simp [login_account_endpoint, login_account, hu, hv, login_exc_to_http]

/-- Witness for C2: both concrete failing logins against a one-user store
yield the identical 401 response. -/
theorem login_failure_indistinguishable_witness :
    (login_account_endpoint [⟨"u1", "alice", "a@b.c", "hpw", "t0"⟩]
        (fun p h => p ++ "x" = h) (fun _ _ => "tok") "nobody@b.c" "pw" =
      .error ⟨401, "Invalid email or password"⟩) ∧
    (login_account_endpoint [⟨"u1", "alice", "a@b.c", "hpw", "t0"⟩]
        (fun p h => p ++ "x" = h) (fun _ _ => "tok") "a@b.c" "wrong" =
      .error ⟨401, "Invalid email or password"⟩) :=
  ⟨login_failure_indistinguishable _ _ _ _ _ (Or.inl (by decide)),
   login_failure_indistinguishable _ _ _ _ _
     (Or.inr ⟨⟨"u1", "alice", "a@b.c", "hpw", "t0"⟩, by decide, by decide⟩)⟩

/-- C8 counterexample: registering an email that already exists is
rejected with status 400 BadRequest, not 409 Conflict as claimed. -/
theorem register_duplicate_email_not_conflict :
    ((register_account_endpoint [⟨"u1", "alice", "a@b.c", "hpw", "t0"⟩]
        (fun p => "h" ++ p) (fun _ _ => "tok") ⟨"bob", "a@b.c", "pw"⟩ "u2" "t1").1 =
      .error ⟨400, "User with this email already exists"⟩) ∧
    (auth_status (register_account_endpoint [⟨"u1", "alice", "a@b.c", "hpw", "t0"⟩]
        (fun p => "h" ++ p) (fun _ _ => "tok") ⟨"bob", "a@b.c", "pw"⟩ "u2" "t1").1 ≠ 409) :=
  ⟨rfl, by decide⟩

/-- C8 (amended): registering an email that already belongs to an existing
user fails with BadRequest 400 whose detail says the email already exists;
no user document is persisted and no token is issued on that attempt. -/
theorem register_duplicate_email_rejected (db : List UserDoc)
    (get_password_hash : String → String)
    (create_access_token : String → String → String)
    (account_payload : UserCreate) (account_id now : String) (u : UserDoc)
    (h : get_user_by_email db account_payload.email = some u) :
    register_account_endpoint db get_password_hash create_access_token
        account_payload account_id now =
      (.error ⟨400, "User with this email already exists"⟩, []) := by
  simp [register_account_endpoint, register_account, h, register_exc_to_http]

/-- Witness for C8 (amended): the concrete duplicate registration yields
the 400 and an empty effect trace. -/
theorem register_duplicate_email_rejected_witness :
    register_account_endpoint [⟨"u1", "alice", "a@b.c", "hpw", "t0"⟩]
        (fun p => "h" ++ p) (fun _ _ => "tok") ⟨"bob", "a@b.c", "pw"⟩ "u2" "t1" =
      (.error ⟨400, "User with this email already exists"⟩, []) :=
  register_duplicate_email_rejected _ _ _ _ _ _
    ⟨"u1", "alice", "a@b.c", "hpw", "t0"⟩ (by decide)

/-- C9: the user object of every successful register and every successful
login is exactly the four-field profile id, username, email, createdAt of
the underlying record; the hashed password is not among these fields, so
it is never present in a response. -/
theorem auth_user_response_fields (db : List UserDoc)
    (get_password_hash : String → String)
    (verify_password : String → String → Bool)
    (create_access_token : String → String → String)
    (account_payload : UserCreate) (account_id now email password : String) :
    (∀ t, (register_account_endpoint db get_password_hash create_access_token
        account_payload account_id now).1 = .ok t →
      t.user = { id := account_id, username := account_payload.username,
                 email := account_payload.email, createdAt := now }) ∧
    (∀ t u, get_user_by_email db email = some u →
      login_account_endpoint db verify_password create_access_token email password = .ok t →
      t.user = { id := u.id, username := u.username,
                 email := u.email, createdAt := u.created_at }) := by
  constructor
  · intro t ht
    unfold register_account_endpoint register_account at ht
    rcases hu : get_user_by_email db account_payload.email with _ | u <;>
      simp [hu] at ht
    simp [← ht]
  · intro t u hu ht
    unfold login_account_endpoint login_account at ht
    rw [hu] at ht
    rcases hv : verify_password password u.hashed_password <;> simp [hv] at ht
    simp [← ht]

/-- Witness for C9: a concrete successful register (into an empty store)
and a concrete successful login both return exactly the four-field
profile, by applying the theorem with its hypotheses discharged by
evaluation. -/
theorem auth_user_response_fields_witness :
    ((Token.mk "tok" ⟨"u1", "alice", "a@b.c", "t0"⟩).user =
      { id := "u1", username := "alice", email := "a@b.c", createdAt := "t0" }) ∧
    ((Token.mk "tk2" ⟨"u1", "alice", "a@b.c", "t0"⟩).user =
      { id := "u1", username := "alice", email := "a@b.c", createdAt := "t0" }) :=
  ⟨(auth_user_response_fields [] (fun p => "h" ++ p) (fun _ _ => false)
      (fun _ _ => "tok") ⟨"alice", "a@b.c", "pw"⟩ "u1" "t0" "" "").1
      (Token.mk "tok" ⟨"u1", "alice", "a@b.c", "t0"⟩) rfl,
   (auth_user_response_fields [⟨"u1", "alice", "a@b.c", "hpw", "t0"⟩]
      (fun p => "h" ++ p) (fun _ _ => true) (fun _ _ => "tk2")
      ⟨"alice", "a@b.c", "pw"⟩ "u1" "t0" "a@b.c" "pw").2
      (Token.mk "tk2" ⟨"u1", "alice", "a@b.c", "t0"⟩)
      ⟨"u1", "alice", "a@b.c", "hpw", "t0"⟩ rfl rfl⟩

/-- C3: when the file fails type validation, or passes it but fails size
validation, with the validator raising an HTTPException with status 400
(BadRequest, as the spec gives for utils.validate_file_type and
validate_file_size), upload_media ends with exactly that error and an
empty effect trace, so blob_storage.upload_file is never invoked on such
a request. -/
theorem upload_invalid_file_rejected_before_blob (env : MediaEnv)
    (file : UploadFile) (description tags : Option String)
    (user_id media_identifier timestamp_iso : String) (e : HTTPError)
    (hbr : e.statusCode = 400)
    (h : env.validate_file_type file = .error (.http e) ∨
      ((∃ k, env.validate_file_type file = .ok k) ∧
        env.validate_file_size file = .error (.http e))) :
    upload_media_endpoint env file description tags user_id
        media_identifier timestamp_iso = (.error e, []) ∧
    blobUploadCalls (upload_media_endpoint env file description tags user_id
        media_identifier timestamp_iso).2 = [] ∧
    upload_status (upload_media_endpoint env file description tags user_id
        media_identifier timestamp_iso).1 = 400 := by
  have hmain : upload_media_endpoint env file description tags user_id
      media_identifier timestamp_iso = (.error e, []) := by
    rcases h with h | ⟨⟨k, hk⟩, hs⟩
    · simp [upload_media_endpoint, upload_media, h, upload_exc_to_http]
    · simp [upload_media_endpoint, upload_media, hk, hs, upload_exc_to_http]
  refine ⟨hmain, ?_, ?_⟩
  · rw [hmain]
    rfl
  · rw [hmain]
    simpa [upload_status] using hbr

/-- An environment whose file-type validator rejects everything with the
BadRequest the spec describes. -/
def envRejectType : MediaEnv :=
  { exampleEnv with
    validate_file_type := fun _ => .error (.http ⟨400, "File type not allowed"⟩) }

/-- Witness for C3: a concrete rejected upload produces the 400 and makes
no blob-store call. -/
theorem upload_invalid_file_rejected_before_blob_witness :
    upload_media_endpoint envRejectType ⟨"a.exe", "application/x", "xx"⟩ none none
        "u1" "m1" "t1" = (.error ⟨400, "File type not allowed"⟩, []) ∧
    blobUploadCalls (upload_media_endpoint envRejectType ⟨"a.exe", "application/x", "xx"⟩
        none none "u1" "m1" "t1").2 = [] ∧
    upload_status (upload_media_endpoint envRejectType ⟨"a.exe", "application/x", "xx"⟩
        none none "u1" "m1" "t1").1 = 400 :=
  upload_invalid_file_rejected_before_blob envRejectType
    ⟨"a.exe", "application/x", "xx"⟩ none none "u1" "m1" "t1"
    ⟨400, "File type not allowed"⟩ rfl (Or.inl rfl)

/-- C4: on an image upload where everything succeeds except the thumbnail
blob upload, which raises, the failure is swallowed: the media document is
still persisted, the endpoint returns it with status 201 Created, and its
thumbnailUrl is None. The document store is assumed to return the document
it is given. -/
theorem upload_thumbnail_failure_nonfatal (env : MediaEnv)
    (file : UploadFile) (description tags : Option String)
    (user_id media_identifier timestamp_iso : String)
    (n : Nat) (pt : Option Json) (bn bu pd msg : String)
    (hk : env.validate_file_type file = .ok "image")
    (hs : env.validate_file_size file = .ok n)
    (ht : parse_tags env.json_loads tags = .ok pt)
    (hu : env.upload_file user_id file.filename file.content_type = .ok (bn, bu))
    (hg : env.generate_thumbnail file.content = some pd)
    (hpd : pd ≠ "")
    (hf : env.upload_file user_id ("thumb_" ++ file.filename) "image/jpeg" = .error msg)
    (hc : ∀ d, env.create_media d = .ok d) :
    ∃ doc, upload_media_endpoint env file description tags user_id
        media_identifier timestamp_iso =
      (.ok doc, [.blobUpload user_id file.filename file.content_type,
                 .blobUpload user_id ("thumb_" ++ file.filename) "image/jpeg",
                 .createMedia doc]) ∧
    doc.thumbnailUrl = none ∧
    upload_status (.ok doc) = 201 ∧
    createdDocs (upload_media_endpoint env file description tags user_id
        media_identifier timestamp_iso).2 = [doc] := by
  refine ⟨{ id := media_identifier, userId := user_id, fileName := bn,
            originalFileName := file.filename, mediaType := "image",
            fileSize := n, mimeType := file.content_type, blobUrl := bu,
            thumbnailUrl := none, description := description, tags := pt,
            uploadedAt := timestamp_iso, updatedAt := timestamp_iso }, ?_, rfl, rfl, ?_⟩
  · simp [upload_media_endpoint, upload_media, thumbnail_step,
      hk, hs, ht, hu, hg, hpd, hf, hc]
  · simp [upload_media_endpoint, upload_media, thumbnail_step,
      hk, hs, ht, hu, hg, hpd, hf, hc, createdDocs]

/-- An environment in which the thumbnail blob upload (and only it)
raises. -/
def envThumbFail : MediaEnv :=
  { exampleEnv with
    upload_file := fun scope name ct =>
      if ct = "image/jpeg" ∧ scope = "u1" ∧ name = "thumb_a.jpg" then .error "boom"
      else .ok (scope ++ "/" ++ name, "https://blob/" ++ scope ++ "/" ++ name) }

/-- Witness for C4: the concrete image upload whose thumbnail upload
raises still persists and returns a document with no thumbnailUrl. -/
theorem upload_thumbnail_failure_nonfatal_witness :
    ∃ doc, upload_media_endpoint envThumbFail ⟨"a.jpg", "image/jpeg", "xx"⟩ none none
        "u1" "m1" "t1" =
      (.ok doc, [.blobUpload "u1" "a.jpg" "image/jpeg",
                 .blobUpload "u1" "thumb_a.jpg" "image/jpeg",
                 .createMedia doc]) ∧
    doc.thumbnailUrl = none ∧
    upload_status (.ok doc) = 201 ∧
    createdDocs (upload_media_endpoint envThumbFail ⟨"a.jpg", "image/jpeg", "xx"⟩ none none
        "u1" "m1" "t1").2 = [doc] :=
  upload_thumbnail_failure_nonfatal envThumbFail ⟨"a.jpg", "image/jpeg", "xx"⟩
    none none "u1" "m1" "t1" 2 none "u1/a.jpg" "https://blob/u1/a.jpg" "th:xx" "boom"
    rfl rfl rfl rfl rfl (by decide) (by simp [envThumbFail, exampleEnv])
    (fun d => rfl)

/-- Helper: createdDocs distributes over trace concatenation. -/
theorem createdDocs_append (a b : List Effect) :
    createdDocs (a ++ b) = createdDocs a ++ createdDocs b := by
  induction a with
  | nil => rfl
  | cons e tl ih => cases e <;> simp [createdDocs, ih]

/-- Helper: the thumbnail block never creates a media document. -/
theorem createdDocs_thumbnail_step (env : MediaEnv)
    (media_kind raw_payload user_id filename : String) :
    createdDocs (thumbnail_step env media_kind raw_payload user_id filename).2 = [] := by
  unfold thumbnail_step
  repeat' split
  all_goals try rfl
  all_goals (dsimp only; split <;> rfl)

/-- C10: every media document handed to the document store's create_media
by upload_media carries the authenticated caller's id as its userId and
the freshly generated server-side identifier as its id, whatever the
request contents and collaborator behaviour. -/
theorem upload_persists_caller_id (env : MediaEnv) (file : UploadFile)
    (description tags : Option String)
    (user_id media_identifier timestamp_iso : String) (d : MediaDoc)
    (hd : d ∈ createdDocs (upload_media env file description tags user_id
        media_identifier timestamp_iso).2) :
    d.userId = user_id ∧ d.id = media_identifier := by
  unfold upload_media at hd
  repeat' split at hd
  all_goals
    simp only [List.append_eq, createdDocs, createdDocs_append,
      createdDocs_thumbnail_step, List.append_nil, List.nil_append,
      List.mem_singleton, List.not_mem_nil] at hd
  all_goals subst hd
  all_goals exact ⟨rfl, rfl⟩

/-- The media document produced by the concrete successful upload of
a.jpg through exampleEnv, also used as the stored record for the get,
update and delete claims. -/
def exampleDoc : MediaDoc :=
  { id := "m1", userId := "u1", fileName := "u1/a.jpg",
    originalFileName := "a.jpg", mediaType := "image", fileSize := 2,
    mimeType := "image/jpeg", blobUrl := "https://blob/u1/a.jpg",
    thumbnailUrl := some "https://blob/u1/thumb_a.jpg", description := none,
    tags := none, uploadedAt := "t1", updatedAt := "t1" }

/-- Witness for C10: the document created by the concrete upload carries
the caller id u1 and the fresh identifier m1. -/
theorem upload_persists_caller_id_witness :
    exampleDoc.userId = "u1" ∧ exampleDoc.id = "m1" :=
  upload_persists_caller_id exampleEnv ⟨"a.jpg", "image/jpeg", "xx"⟩ none none
    "u1" "m1" "t1" exampleDoc (List.Mem.head _)

/-- C5: a successful ownership-checked update changes only the provided
fields plus updatedAt: every identifying, file and blob field of the
record is unchanged, updatedAt becomes the fresh timestamp, description
and tags change exactly when provided and are otherwise untouched. -/
theorem update_media_frame (db : List MediaDoc) (media_id : String)
    (update_data : MediaUpdate) (user_id now : String) (m r : MediaDoc)
    (hm : fetch_and_verify_media_ownership db media_id user_id = .ok m)
    (hr : update_media_metadata db media_id update_data user_id now = .ok r) :
    r.id = m.id ∧ r.userId = m.userId ∧ r.fileName = m.fileName ∧
    r.originalFileName = m.originalFileName ∧ r.mediaType = m.mediaType ∧
    r.fileSize = m.fileSize ∧ r.mimeType = m.mimeType ∧
    r.blobUrl = m.blobUrl ∧ r.thumbnailUrl = m.thumbnailUrl ∧
    r.uploadedAt = m.uploadedAt ∧ r.updatedAt = now ∧
    (update_data.description = none → r.description = m.description) ∧
    (∀ dsc, update_data.description = some dsc → r.description = some dsc) ∧
    (update_data.tags = none → r.tags = m.tags) ∧
    (∀ ts, update_data.tags = some ts →
      r.tags = some (Json.arr (ts.map Json.str))) := by
  unfold update_media_metadata at hr
  rw [hm] at hr
  simp only [Except.ok.injEq] at hr
  subst hr
  refine ⟨rfl, rfl, rfl, rfl, rfl, rfl, rfl, rfl, rfl, rfl, rfl, ?_, ?_, ?_, ?_⟩
  · intro h
    simp [cosmos_update_media, h]
  · intro dsc h
    simp [cosmos_update_media, h]
  · intro h
    simp [cosmos_update_media, h]
  · intro ts h
    simp [cosmos_update_media, h]

/-- The record after the concrete update providing only a description. -/
def exampleUpdatedDoc : MediaDoc :=
  { exampleDoc with description := some "new", updatedAt := "t2" }

/-- Witness for C5: updating only the description of the stored record
leaves every other field alone and stamps updatedAt. -/
theorem update_media_frame_witness :
    exampleUpdatedDoc.id = exampleDoc.id ∧
    exampleUpdatedDoc.userId = exampleDoc.userId ∧
    exampleUpdatedDoc.fileName = exampleDoc.fileName ∧
    exampleUpdatedDoc.originalFileName = exampleDoc.originalFileName ∧
    exampleUpdatedDoc.mediaType = exampleDoc.mediaType ∧
    exampleUpdatedDoc.fileSize = exampleDoc.fileSize ∧
    exampleUpdatedDoc.mimeType = exampleDoc.mimeType ∧
    exampleUpdatedDoc.blobUrl = exampleDoc.blobUrl ∧
    exampleUpdatedDoc.thumbnailUrl = exampleDoc.thumbnailUrl ∧
    exampleUpdatedDoc.uploadedAt = exampleDoc.uploadedAt ∧
    exampleUpdatedDoc.updatedAt = "t2" ∧
    ((⟨some "new", none⟩ : MediaUpdate).description = none →
      exampleUpdatedDoc.description = exampleDoc.description) ∧
    (∀ dsc, (⟨some "new", none⟩ : MediaUpdate).description = some dsc →
      exampleUpdatedDoc.description = some dsc) ∧
    ((⟨some "new", none⟩ : MediaUpdate).tags = none →
      exampleUpdatedDoc.tags = exampleDoc.tags) ∧
    (∀ ts, (⟨some "new", none⟩ : MediaUpdate).tags = some ts →
      exampleUpdatedDoc.tags = some (Json.arr (ts.map Json.str))) :=
  update_media_frame [exampleDoc] "m1" ⟨some "new", none⟩ "u1" "t2"
    exampleDoc exampleUpdatedDoc rfl rfl

/-- C6: deleting an owned record whose recorded thumbnail blob fails to
delete still succeeds: the metadata record is deleted and the endpoint
returns 204; whereas a failing primary blob delete aborts with a 500
before any metadata delete. -/
theorem delete_thumbnail_failure_nonfatal (env : MediaEnv)
    (db : List MediaDoc) (media_id user_id : String) (m : MediaDoc)
    (tid msg1 : String)
    (hm : fetch_and_verify_media_ownership db media_id user_id = .ok m)
    (hth : extract_thumbnail_blob_identifier m = some tid)
    (htid : tid ≠ "") :
    ((env.delete_file m.fileName = .ok () ∧ env.delete_file tid = .error msg1 ∧
        env.delete_media_record media_id user_id = .ok ()) →
      delete_media_endpoint env db media_id user_id =
        (.ok (), [.blobDelete m.fileName, .blobDelete tid,
                  .deleteMedia media_id user_id]) ∧
      delete_status (delete_media_endpoint env db media_id user_id).1 = 204) ∧
    (∀ msg2, env.delete_file m.fileName = .error msg2 →
      delete_media_endpoint env db media_id user_id =
        (.error ⟨500, "Failed to delete media"⟩, [.blobDelete m.fileName]) ∧
      deleteMediaCalls (delete_media_endpoint env db media_id user_id).2 = []) := by
  constructor
  · rintro ⟨h1, _h2, h3⟩
    have hmain : delete_media_endpoint env db media_id user_id =
        (.ok (), [.blobDelete m.fileName, .blobDelete tid,
                  .deleteMedia media_id user_id]) := by
      simp [delete_media_endpoint, delete_media, hm, hth, htid, h1, h3]
    refine ⟨hmain, ?_⟩
    rw [hmain]
    rfl
  · intro msg2 h1
    have hmain : delete_media_endpoint env db media_id user_id =
        (.error ⟨500, "Failed to delete media"⟩, [.blobDelete m.fileName]) := by
      simp [delete_media_endpoint, delete_media, hm, h1, delete_exc_to_http]
    refine ⟨hmain, ?_⟩
    rw [hmain]
    rfl

/-- An environment where only the recorded thumbnail blob fails to
delete. -/
def envThumbDeleteFail : MediaEnv :=
  { exampleEnv with
    delete_file := fun n =>
      if n = "https://blob/u1/thumb_a.jpg" then .error "boom" else .ok () }

/-- An environment where every blob delete fails, so the primary blob
delete fails. -/
def envPrimaryDeleteFail : MediaEnv :=
  { exampleEnv with delete_file := fun _ => .error "down" }

/-- Witness for C6: on the stored record, a failing thumbnail delete still
ends in 204 with the metadata deleted, and a failing primary delete ends
in the 500 with no metadata delete. -/
theorem delete_thumbnail_failure_nonfatal_witness :
    (delete_media_endpoint envThumbDeleteFail [exampleDoc] "m1" "u1" =
        (.ok (), [.blobDelete "u1/a.jpg", .blobDelete "https://blob/u1/thumb_a.jpg",
                  .deleteMedia "m1" "u1"]) ∧
      delete_status (delete_media_endpoint envThumbDeleteFail [exampleDoc] "m1" "u1").1 = 204) ∧
    (delete_media_endpoint envPrimaryDeleteFail [exampleDoc] "m1" "u1" =
        (.error ⟨500, "Failed to delete media"⟩, [.blobDelete "u1/a.jpg"]) ∧
      deleteMediaCalls (delete_media_endpoint envPrimaryDeleteFail [exampleDoc] "m1" "u1").2 = []) :=
  ⟨(delete_thumbnail_failure_nonfatal envThumbDeleteFail [exampleDoc] "m1" "u1"
      exampleDoc "https://blob/u1/thumb_a.jpg" "boom" rfl rfl (by decide)).1
      ⟨by simp [envThumbDeleteFail, exampleEnv, exampleDoc], rfl, rfl⟩,
   (delete_thumbnail_failure_nonfatal envPrimaryDeleteFail [exampleDoc] "m1" "u1"
      exampleDoc "https://blob/u1/thumb_a.jpg" "boom" rfl rfl (by decide)).2
      "down" rfl⟩

/-- C7: deleting an owned record with no recorded thumbnail performs
exactly one blob-store delete, on the primary blob, then removes the
metadata record. -/
theorem delete_no_thumbnail_single_blob_delete (env : MediaEnv)
    (db : List MediaDoc) (media_id user_id : String) (m : MediaDoc)
    (hm : fetch_and_verify_media_ownership db media_id user_id = .ok m)
    (hth : extract_thumbnail_blob_identifier m = none)
    (hp : env.delete_file m.fileName = .ok ())
    (hrec : env.delete_media_record media_id user_id = .ok ()) :
    delete_media_endpoint env db media_id user_id =
      (.ok (), [.blobDelete m.fileName, .deleteMedia media_id user_id]) ∧
    blobDeleteCalls (delete_media_endpoint env db media_id user_id).2 =
      [m.fileName] ∧
    deleteMediaCalls (delete_media_endpoint env db media_id user_id).2 =
      [(media_id, user_id)] := by
  have hmain : delete_media_endpoint env db media_id user_id =
      (.ok (), [.blobDelete m.fileName, .deleteMedia media_id user_id]) := by
    simp [delete_media_endpoint, delete_media, hm, hth, hp, hrec]
  refine ⟨hmain, ?_, ?_⟩ <;> rw [hmain] <;> rfl

/-- The stored record without a thumbnail. -/
def exampleDocNoThumb : MediaDoc := { exampleDoc with thumbnailUrl := none }

/-- Witness for C7: deleting the record with no thumbnail makes exactly
the one primary blob delete and the metadata delete. -/
theorem delete_no_thumbnail_single_blob_delete_witness :
    delete_media_endpoint exampleEnv [exampleDocNoThumb] "m1" "u1" =
      (.ok (), [.blobDelete "u1/a.jpg", .deleteMedia "m1" "u1"]) ∧
    blobDeleteCalls (delete_media_endpoint exampleEnv [exampleDocNoThumb] "m1" "u1").2 =
      ["u1/a.jpg"] ∧
    deleteMediaCalls (delete_media_endpoint exampleEnv [exampleDocNoThumb] "m1" "u1").2 =
      [("m1", "u1")] :=
  delete_no_thumbnail_single_blob_delete exampleEnv [exampleDocNoThumb] "m1" "u1"
    exampleDocNoThumb rfl rfl rfl rfl

end MediaBackend
